import Mathlib

/-
Verification of the `CMICmnStreamStdinLinux` stdin line reader
(lldb/tools/lldb-mi/MICmnStreamStdinLinux.cpp), shallowly embedded.

Machine state is a record mirroring the C++ data members; the stdio stream,
the select(2) outcomes and the results of the module lifecycle registry are
explicit inputs.  `MIstatus::success` is `true`, `MIstatus::failure` is
`false`, as in MIUtilStatus.
-/

namespace StdinLinux

/-- MI status code `MIstatus::success` (the C++ code uses plain `bool`). -/
def MIstatus.success : Bool := true

/-- MI status code `MIstatus::failure`. -/
def MIstatus.failure : Bool := false

/-- The process standard-input stream as seen through the C stdio calls the
source uses: the pending bytes, the `ferror` indicator, and the
`strerror(errno)` text that would be reported for the current error. -/
structure Stream where
  content : List Char
  errFlag : Bool
  errText : String
  deriving Repr, DecidableEq

/-- Data members of `CMICmnStreamStdinLinux`.  `m_pStdin` records whether the
`FILE *` handle is stored (non-null); `m_pCmdBuffer` records the allocated
capacity of the command buffer, `none` for the null pointer (the C++ buffer
contents are write-before-read in `ReadLine`, so only the capacity is
observable).  `m_bInitialized` and `errorDescription` live in the base class
`CMICmnBase`; modelled from the spec: the Error-Description Sink is a
settable/clearable last-error string and `m_bInitialized` starts false. -/
structure ReaderState where
  m_constBufferSize : Nat
  m_pStdin : Bool
  m_pCmdBuffer : Option Nat
  m_waitForInput : Bool
  m_bInitialized : Bool
  errorDescription : Option String
  deriving Repr, DecidableEq

/-- The constructor `CMICmnStreamStdinLinux::CMICmnStreamStdinLinux`:
buffer size 1024, null stdin handle, null buffer, `m_waitForInput` true. -/
def construct : ReaderState :=
  { m_constBufferSize := 1024
    m_pStdin := false
    m_pCmdBuffer := none
    m_waitForInput := true
    m_bInitialized := false
    errorDescription := none }

/-- `CMICmnBase::SetErrorDescription`.  Modelled from the spec: the
Error-Description Sink stores the given text as the last error. -/
def SetErrorDescription (st : ReaderState) (msg : String) : ReaderState :=
  { st with errorDescription := some msg }

/-- `CMICmnBase::ClrErrorDescription`.  Modelled from the spec: the
Error-Description Sink is cleared. -/
def ClrErrorDescription (st : ReaderState) : ReaderState :=
  { st with errorDescription := none }

/-- Outcomes of the Module Lifecycle Registry for one `Initialize`/`Shutdown`
call: whether `CMICmnLog` and `CMICmnResources` bring-up (resp. tear-down)
succeed, and the error text each produces on failure.  Modelled from the
spec: the registry provides per-module Results whose error text is
aggregated. -/
structure ModuleEnv where
  logOk : Bool
  resourcesOk : Bool
  logErrMsg : String
  resourcesErrMsg : String
  deriving Repr, DecidableEq

/-- `MI::ModuleInit<T>(id, vwbOk, vwErrMsg)`.  Modelled from the spec: a
module is brought up only while the running flag is still good; on failure
the flag drops and the module's error text is recorded. -/
def moduleInit (ok : Bool) (msg : String) (acc : Bool × String) : Bool × String :=
  if acc.1 && !ok then (false, msg) else acc

/-- `MI::ModuleShutdown<T>(id, vwbOk, vwErrMsg)`.  Modelled from the spec:
every module is torn down; failures drop the flag and append error text. -/
def moduleShutdown (ok : Bool) (msg : String) (acc : Bool × String) : Bool × String :=
  if !ok then (false, if acc.2.isEmpty then msg else acc.2 ++ ", " ++ msg) else acc

/-- Text recorded on `Initialize` failure.  Modelled from the spec: the
resource string `IDS_MI_INIT_ERR_OS_STDIN_HANDLER` formatted with the
aggregated module error text (the resource table is not part of the
fragment). -/
def initErrText (errMsg : String) : String :=
  "Stdin stream. Initialise failed. " ++ errMsg

/-- Text recorded on `Shutdown` teardown failure.  Modelled from the spec:
the resource string `IDS_MI_SHTDWN_ERR_OS_STDIN_HANDLER` formatted with the
aggregated module error text. -/
def shutdownErrText (errMsg : String) : String :=
  "Stdin stream. Shutdown failed. " ++ errMsg

/-- `CMICmnStreamStdinLinux::Initialize`.  Early-returns success when already
initialized; otherwise brings up Log then Resources, allocates the command
buffer and stores the stdin handle only when both succeeded, clears the
stream error indicator (`::clearerr(stdin)`) unconditionally, sets
`m_bInitialized` to the aggregate flag, and on failure records the error
description and returns failure.  Result: (new state, new stream, status). -/
def Initialize (st : ReaderState) (env : ModuleEnv) (stream : Stream) :
    ReaderState × Stream × Bool :=
  if st.m_bInitialized then (st, stream, MIstatus.success)
  else
    let r1 := moduleInit env.logOk env.logErrMsg (MIstatus.success, "")
    let r2 := moduleInit env.resourcesOk env.resourcesErrMsg r1
    let st1 :=
      if r2.1 then
        { st with m_pCmdBuffer := some st.m_constBufferSize, m_pStdin := true }
      else st
    let stream1 : Stream := { stream with errFlag := false }
    let st2 := { st1 with m_bInitialized := r2.1 }
    if r2.1 then (st2, stream1, MIstatus.success)
    else (SetErrorDescription st2 (initErrText r2.2), stream1, MIstatus.failure)

/-- `CMICmnStreamStdinLinux::Shutdown`.  Early-returns success when not
initialized; otherwise marks un-initialized, clears the error description,
frees the buffer and nulls both pointers, tears down Resources then Log,
records any teardown error text, and returns success in every case. -/
def Shutdown (st : ReaderState) (env : ModuleEnv) : ReaderState × Bool :=
  if !st.m_bInitialized then (st, MIstatus.success)
  else
    let st1 := ClrErrorDescription { st with m_bInitialized := false }
    let st2 := { st1 with m_pCmdBuffer := none, m_pStdin := false }
    let r1 := moduleShutdown env.resourcesOk env.resourcesErrMsg (MIstatus.success, "")
    let r2 := moduleShutdown env.logOk env.logErrMsg r1
    if r2.1 then (st2, MIstatus.success)
    else (SetErrorDescription st2 (shutdownErrText r2.2), MIstatus.success)

/-- Outcome of one `::select` call inside `InputAvailable`: return value `0`
(timeout), `-1` (error), or positive (stdin readable). -/
inductive SelectResult where
  | timeout
  | selErr
  | ready
  deriving Repr, DecidableEq

/-- One loop round of `InputAvailable` as seen by the consumer thread: the
`::select` outcome of this iteration, then the value of `m_waitForInput`
read at the next loop head (the interrupt thread may have cleared it in
between). -/
abbrev Round := SelectResult × Bool

/-- The `while (m_waitForInput)` loop of `CMICmnStreamStdinLinux::InputAvailable`.
`availIn` is the value the caller's `vwbAvail` out-parameter holds on entry;
`flag` is the `m_waitForInput` value read at the current loop head.  Returns
`(vwbAvail on exit, status)`; `none` means the modelled rounds ran out with
the loop still waiting.  When the flag reads false the loop exits and the
function returns `MIstatus::failure` WITHOUT writing `vwbAvail` (the source
falls through to `return MIstatus::failure;`). -/
def InputAvailableLoop (availIn : Bool) : Bool → List Round → Option (Bool × Bool)
  | false, _ => some (availIn, MIstatus.failure)
  | true, [] => none
  | true, (sel, flag2) :: rest =>
    match sel with
    | SelectResult.timeout => InputAvailableLoop availIn flag2 rest
    | SelectResult.selErr => some (false, MIstatus.failure)
    | SelectResult.ready => some (true, MIstatus.success)

/-- The per-iteration `select` timeout: `tv.tv_sec = 1`. -/
def pollTimeoutSecs : Nat := 1

/-- The per-iteration `select` timeout: `tv.tv_usec = 0`. -/
def pollTimeoutUsecs : Nat := 0

/-- `CMICmnStreamStdinLinux::InputAvailable` (non-`_WIN32` build).  The first
flag read is the instance's `m_waitForInput`; the method writes no data
member and `select` consumes no stream data, so state and stream pass
through unchanged.  Result: `(state, vwbAvail, status, stream)`. -/
def InputAvailable (st : ReaderState) (availIn : Bool) (rounds : List Round)
    (stream : Stream) : Option (ReaderState × Bool × Bool × Stream) :=
  (InputAvailableLoop availIn st.m_waitForInput rounds).map
    fun p => (st, p.1, p.2, stream)

/-- The read performed by `::fgets(buf, n, stdin)` with room for `n` data
characters (the C call receives `n + 1` and reserves one slot for the
terminating NUL): consume at most `n` characters, stopping after a `'\n'`.
Returns (characters read, remaining stream content). -/
def fgetsChars : Nat → List Char → List Char × List Char
  | 0, s => ([], s)
  | _ + 1, [] => ([], [])
  | n + 1, c :: cs =>
    if c == '\n' then ([c], cs)
    else
      let p := fgetsChars n cs
      (c :: p.1, p.2)

/-- A line-terminator byte as tested by the strip loop: `'\n'` or `'\r'`. -/
def isTerm (c : Char) : Bool := c == '\n' || c == '\r'

/-- The strip loop of `ReadLine`: walk the NUL-terminated buffer and cut it
at the first `'\n'` or `'\r'` (the source overwrites that byte with NUL). -/
def stripLine : List Char → List Char
  | [] => []
  | c :: cs => if isTerm c then [] else c :: stripLine cs

/-- Result of one `ReadLine` call: `ok line` when `fgets` returned the
buffer, `eof` when it returned null (end-of-stream or error with nothing
read). -/
inductive ReadLineResult where
  | ok (line : List Char)
  | eof
  deriving Repr, DecidableEq

/-- `CMICmnStreamStdinLinux::ReadLine`.  Clears the caller's error-message
out-parameter, calls `::fgets(&m_pCmdBuffer[0], m_constBufferSize, stdin)`,
and on null return consults `::ferror(m_pStdin)`.  Result
`some (result, vwErrMsg, stream after)`; `none` models undefined behavior:
the method performs no initialization check, so with `m_pCmdBuffer` null it
dereferences the null buffer pointer, and with `m_pStdin` null it passes a
null `FILE *` to `ferror`. -/
def ReadLine (st : ReaderState) (stream : Stream) :
    Option (ReadLineResult × String × Stream) :=
  match st.m_pCmdBuffer with
  | none => none
  | some _ =>
    match stream.content with
    | [] =>
      if st.m_pStdin then
        if stream.errFlag then some (ReadLineResult.eof, stream.errText, stream)
        else some (ReadLineResult.eof, "", stream)
      else none
    | _ :: _ =>
      let p := fgetsChars (st.m_constBufferSize - 1) stream.content
      some (ReadLineResult.ok (stripLine p.1), "", { stream with content := p.2 })

/-- `CMICmnStreamStdinLinux::InterruptReadLine`: `m_waitForInput = false`. -/
def InterruptReadLine (st : ReaderState) : ReaderState :=
  { st with m_waitForInput := false }

/-- One externally drivable operation of the component, with the
environment data each needs. -/
inductive Op where
  | opInitialize (env : ModuleEnv) (stream : Stream)
  | opShutdown (env : ModuleEnv)
  | opInputAvailable (availIn : Bool) (rounds : List Round) (stream : Stream)
  | opReadLine (stream : Stream)
  | opInterruptReadLine
  deriving DecidableEq

/-- The state transition of one operation.  `InputAvailable` returns its
state component unchanged and `ReadLine` writes no data member (its model
returns no state), so both leave the record as is. -/
def applyOp (st : ReaderState) : Op → ReaderState
  | Op.opInitialize env stream => (Initialize st env stream).1
  | Op.opShutdown env => (Shutdown st env).1
  | Op.opInputAvailable availIn rounds stream =>
    match InputAvailable st availIn rounds stream with
    | some q => q.1
    | none => st
  | Op.opReadLine _ => st
  | Op.opInterruptReadLine => InterruptReadLine st

/-- Run a sequence of operations from a state. -/
def runOps (ops : List Op) (st : ReaderState) : ReaderState :=
  ops.foldl applyOp st

/-! ## Helper lemmas -/

/-- The strip loop is `takeWhile` with the non-terminator predicate. -/
theorem stripLine_eq_takeWhile (l : List Char) :
    stripLine l = l.takeWhile (fun c => !(isTerm c)) := by
  induction l with
  | nil => rfl
  | cons c cs ih =>
    cases h : isTerm c <;> simp [stripLine, List.takeWhile, h, ih]

/-- Stripping what `fgets` read equals stripping the same-length prefix of
the stream: the only characters `fgets` omits sit at or beyond a `'\n'`. -/
theorem stripLine_fgetsChars (s : List Char) :
    ∀ n : Nat, stripLine (fgetsChars n s).1 = stripLine (s.take n) := by
  induction s with
  | nil => intro n; cases n <;> rfl
  | cons c cs ih =>
    intro n
    cases n with
    | zero => rfl
    | succ m =>
      by_cases h : c = '\n'
      · subst h
        simp [fgetsChars, stripLine, isTerm]
      · have hb : (c == '\n') = false := by simp [h]
        cases ht : isTerm c <;>
          simp [fgetsChars, hb, stripLine, ht, ih m]

/-- `fgets` consumes at most `n` characters. -/
theorem fgetsChars_consumes_le (s : List Char) :
    ∀ n : Nat, s.length ≤ n + (fgetsChars n s).2.length := by
  induction s with
  | nil => intro n; cases n <;> simp [fgetsChars]
  | cons c cs ih =>
    intro n
    cases n with
    | zero => simp [fgetsChars]
    | succ m =>
      by_cases h : (c == '\n') = true
      · simp [fgetsChars, h]; omega
      · have hb : (c == '\n') = false := by simpa using h
        have := ih m
        simp [fgetsChars, hb]
        omega

/-- If a terminator occurs within the first `n` characters, truncating the
stream to `n` characters does not change where `takeWhile` stops. -/
theorem takeWhile_take_of_term (s : List Char) :
    ∀ n : Nat, (∃ c ∈ s.take n, isTerm c) →
      (s.take n).takeWhile (fun c => !(isTerm c)) =
        s.takeWhile (fun c => !(isTerm c)) := by
  induction s with
  | nil => intro n _; simp
  | cons c cs ih =>
    intro n hex
    cases n with
    | zero => simp at hex
    | succ m =>
      cases ht : isTerm c with
      | true => simp [List.takeWhile, ht]
      | false =>
        have hex2 : ∃ x ∈ cs.take m, isTerm x := by
          rcases hex with ⟨x, hx, hxt⟩
          rcases (by simpa using hx : x = c ∨ x ∈ cs.take m) with h | h
          · subst h; rw [ht] at hxt; cases hxt
          · exact ⟨x, h, hxt⟩
        simp [List.takeWhile, ht, ih m hex2]

/-- With the flag already false the wait loop exits at once: `vwbAvail`
keeps its entry value and the status is failure. -/
theorem inputAvailableLoop_flag_false (availIn : Bool) (rounds : List Round) :
    InputAvailableLoop availIn false rounds = some (availIn, MIstatus.failure) := by
  cases rounds <;> rfl

/-- If every round up to some point times out with the flag still up and the
flag then reads false, the loop exits there with failure, `vwbAvail`
untouched, whatever comes after. -/
theorem inputAvailableLoop_interrupted (availIn : Bool) (post : List Round) :
    ∀ pre : List Round, (∀ x ∈ pre, x = (SelectResult.timeout, true)) →
      InputAvailableLoop availIn true (pre ++ (SelectResult.timeout, false) :: post) =
        some (availIn, MIstatus.failure) := by
  intro pre
  induction pre with
  | nil =>
    intro _
    simp [InputAvailableLoop, inputAvailableLoop_flag_false]
  | cons r rest ih =>
    intro hall
    have hr : r = (SelectResult.timeout, true) := hall r (by simp)
    subst hr
    simpa [InputAvailableLoop] using ih fun x hx => hall x (by simp [hx])

/-- Any run whose rounds contain a false flag reading terminates. -/
theorem inputAvailableLoop_isSome (availIn : Bool) :
    ∀ (rounds : List Round) (flag : Bool),
      (flag = false ∨ ∃ x ∈ rounds, x.2 = false) →
      (InputAvailableLoop availIn flag rounds).isSome := by
  intro rounds
  induction rounds with
  | nil =>
    intro flag h
    rcases h with h | h
    · subst h; simp [InputAvailableLoop]
    · simp at h
  | cons r rest ih =>
    intro flag h
    cases flag with
    | false => simp [InputAvailableLoop]
    | true =>
      obtain ⟨sel, flag2⟩ := r
      cases sel with
      | selErr => simp [InputAvailableLoop]
      | ready => simp [InputAvailableLoop]
      | timeout =>
        have h2 : flag2 = false ∨ ∃ x ∈ rest, x.2 = false := by
          rcases h with h | ⟨x, hx, hxf⟩
          · cases h
          · rcases List.mem_cons.mp hx with h1 | h1
            · subst h1; exact Or.inl hxf
            · exact Or.inr ⟨x, h1, hxf⟩
        simpa [InputAvailableLoop] using ih flag2 h2

/-- `Initialize` never writes `m_waitForInput`. -/
theorem initialize_waitForInput (st : ReaderState) (env : ModuleEnv) (stream : Stream) :
    (Initialize st env stream).1.m_waitForInput = st.m_waitForInput := by
  cases hI : st.m_bInitialized <;> cases hL : env.logOk <;> cases hR : env.resourcesOk <;>
    simp [Initialize, moduleInit, MIstatus.success, SetErrorDescription, hI, hL, hR]

/-- `Shutdown` never writes `m_waitForInput`. -/
theorem shutdown_waitForInput (st : ReaderState) (env : ModuleEnv) :
    (Shutdown st env).1.m_waitForInput = st.m_waitForInput := by
  cases hI : st.m_bInitialized <;> cases hL : env.logOk <;> cases hR : env.resourcesOk <;>
    simp [Shutdown, moduleShutdown, MIstatus.success, SetErrorDescription,
      ClrErrorDescription, hI, hL, hR]

/-- `Shutdown` returns `MIstatus::success` from every state. -/
theorem shutdown_status (st : ReaderState) (env : ModuleEnv) :
    (Shutdown st env).2 = MIstatus.success := by
  cases hI : st.m_bInitialized <;> cases hL : env.logOk <;> cases hR : env.resourcesOk <;>
    simp [Shutdown, moduleShutdown, MIstatus.success, SetErrorDescription,
      ClrErrorDescription, hI, hL, hR]

/-- After `Shutdown` the instance is un-initialized. -/
theorem shutdown_not_initialized (st : ReaderState) (env : ModuleEnv) :
    (Shutdown st env).1.m_bInitialized = false := by
  cases hI : st.m_bInitialized <;> cases hL : env.logOk <;> cases hR : env.resourcesOk <;>
    simp [Shutdown, moduleShutdown, MIstatus.success, SetErrorDescription,
      ClrErrorDescription, hI, hL, hR]

/-- `Shutdown` on an un-initialized instance is a successful no-op. -/
theorem shutdown_noop (st : ReaderState) (env : ModuleEnv)
    (h : st.m_bInitialized = false) : Shutdown st env = (st, MIstatus.success) := by
  simp [Shutdown, h]

/-- `InputAvailable` hands its state component back unchanged: the method
writes no data member. -/
theorem inputAvailable_state_eq (st : ReaderState) (availIn : Bool)
    (rounds : List Round) (stream : Stream) (out : ReaderState × Bool × Bool × Stream)
    (h : InputAvailable st availIn rounds stream = some out) : out.1 = st := by
  simp only [InputAvailable, Option.map_eq_some'] at h
  obtain ⟨p, _, hp⟩ := h
  rw [← hp]

/-- No operation other than `InterruptReadLine` writes `m_waitForInput`. -/
theorem applyOp_waitForInput (st : ReaderState) (op : Op)
    (h : op ≠ Op.opInterruptReadLine) :
    (applyOp st op).m_waitForInput = st.m_waitForInput := by
  cases op with
  | opInitialize env stream => exact initialize_waitForInput st env stream
  | opShutdown env => exact shutdown_waitForInput st env
  | opInputAvailable availIn rounds stream =>
    simp only [applyOp]
    cases hia : InputAvailable st availIn rounds stream with
    | none => rfl
    | some q =>
      show q.1.m_waitForInput = st.m_waitForInput
      rw [inputAvailable_state_eq st availIn rounds stream q hia]
  | opReadLine stream => rfl
  | opInterruptReadLine => exact absurd rfl h

/-! ## Concrete fixtures for witnesses and counterexamples -/

/-- Module environment in which every module succeeds. -/
def envOk : ModuleEnv :=
  { logOk := true, resourcesOk := true, logErrMsg := "", resourcesErrMsg := "" }

/-- Module environment in which the Log module fails. -/
def envBad : ModuleEnv :=
  { logOk := false, resourcesOk := true, logErrMsg := "log down", resourcesErrMsg := "" }

/-- An empty, error-free input stream. -/
def stream0 : Stream := { content := [], errFlag := false, errText := "" }

/-- A reader in the initialized state (buffer allocated, stdin stored). -/
def wReader : ReaderState :=
  { m_constBufferSize := 1024
    m_pStdin := true
    m_pCmdBuffer := some 1024
    m_waitForInput := true
    m_bInitialized := true
    errorDescription := none }

/-- A stream holding one complete command line. -/
def wStream : Stream := { content := "step\n".toList, errFlag := false, errText := "" }

/-- Unfolding of `ReadLine` on a non-empty stream with an allocated buffer:
`fgets` reads, the strip loop cuts at the first terminator. -/
theorem ReadLine_read (st : ReaderState) (stream : Stream) (cap : Nat) (a : Char)
    (as : List Char) (hbuf : st.m_pCmdBuffer = some cap)
    (hcon : stream.content = a :: as) :
    ReadLine st stream =
      some (ReadLineResult.ok
          (stripLine (fgetsChars (st.m_constBufferSize - 1) stream.content).1), "",
        { stream with
          content := (fgetsChars (st.m_constBufferSize - 1) stream.content).2 }) := by
  simp only [ReadLine, hbuf]
  rw [hcon]

/-! ## Claim C1 -/

/-- Claim C1, counterexample: with the cancellation flag already disabled
(`InterruptReadLine` on a freshly constructed instance) and the caller's
`vwbAvail` holding `true` on entry, `InputAvailable` exits its loop with
`MIstatus::failure` but leaves the availability out-parameter at `true`:
the source falls through to `return MIstatus::failure;` without ever
assigning `vwbAvail`, so the out-parameter is not set to false as the
claim states. -/
theorem inputAvailable_cancel_counterexample :
    InputAvailable (InterruptReadLine construct) true [] stream0 =
      some (InterruptReadLine construct, true, MIstatus.failure, stream0) ∧
    InputAvailable (InterruptReadLine construct) true [] stream0 ≠
      some (InterruptReadLine construct, false, MIstatus.failure, stream0) := by
  constructor
  · rfl
  · decide

/-- Claim C1 (amended): if the cancellation flag is disabled before the call
or becomes disabled while `InputAvailable` is looping (all earlier rounds
having timed out), the wait loop exits and the call returns
`MIstatus::failure` with the availability out-parameter left unchanged (the
cancellation path never writes it), and the stream passes through untouched:
no input data is consumed. -/
theorem inputAvailable_cancel_fails (st : ReaderState) (availIn : Bool)
    (rounds : List Round) (stream : Stream)
    (h : st.m_waitForInput = false ∨
      (st.m_waitForInput = true ∧ ∃ pre post,
        rounds = pre ++ (SelectResult.timeout, false) :: post ∧
        ∀ x ∈ pre, x = (SelectResult.timeout, true))) :
    InputAvailable st availIn rounds stream =
      some (st, availIn, MIstatus.failure, stream) := by
  rcases h with h | ⟨ht, pre, post, hr, hall⟩
  · simp [InputAvailable, h, inputAvailableLoop_flag_false]
  · subst hr
    simp [InputAvailable, ht, inputAvailableLoop_interrupted availIn post pre hall]

/-- Claim C1, witness: the flag drops after one timed-out round; the call
fails and the caller's `vwbAvail`, `true` on entry, is still `true`. -/
theorem inputAvailable_cancel_fails_witness :
    InputAvailable construct true
      [(SelectResult.timeout, true), (SelectResult.timeout, false)] stream0 =
      some (construct, true, MIstatus.failure, stream0) :=
  inputAvailable_cancel_fails construct true _ stream0
    (Or.inr ⟨rfl, [(SelectResult.timeout, true)], [], rfl, by decide⟩)

/-! ## Claim C5 -/

/-- Claim C5: each `select` poll is bounded by the one-second timeout
(`tv_sec = 1`, `tv_usec = 0`), and once the cancellation flag reads false —
immediately when disabled on entry, or at the first loop-head re-check after
`InterruptReadLine` cleared it — the wait loop of `InputAvailable`
terminates with a result rather than looping on: the call never hangs once
interrupted. -/
theorem inputAvailable_interrupt_terminates :
    pollTimeoutSecs = 1 ∧ pollTimeoutUsecs = 0 ∧
    ∀ (st : ReaderState) (availIn : Bool) (rounds : List Round) (stream : Stream),
      (st.m_waitForInput = false ∨ ∃ x ∈ rounds, x.2 = false) →
      (InputAvailable st availIn rounds stream).isSome := by
  refine ⟨rfl, rfl, ?_⟩
  intro st availIn rounds stream h
  have hs := inputAvailableLoop_isSome availIn rounds st.m_waitForInput h
  cases hl : InputAvailableLoop availIn st.m_waitForInput rounds with
  | none => rw [hl] at hs; cases hs
  | some p => simp [InputAvailable, hl]

/-- Claim C5, witness: the flag reads false after the first timed-out poll
and the loop ends there. -/
theorem inputAvailable_interrupt_terminates_witness :
    (InputAvailable construct true [(SelectResult.timeout, false)] stream0).isSome :=
  inputAvailable_interrupt_terminates.2.2 construct true _ stream0
    (Or.inr ⟨(SelectResult.timeout, false), by simp, rfl⟩)

/-! ## Claim C2 -/

/-- Claim C2: when the input holds a line terminator (`'\n'` or `'\r'`)
within the first `bufferCapacity − 1` bytes, `ReadLine` consumes at most
`bufferCapacity − 1` bytes from the stream and returns exactly the input
bytes that precede the first terminator (the strip loop overwrites that
byte with NUL), so the returned line contains no byte at or beyond the
first line-terminator byte. -/
theorem readLine_short_line (st : ReaderState) (stream : Stream)
    (hbuf : st.m_pCmdBuffer.isSome = true)
    (hterm : ∃ c ∈ stream.content.take (st.m_constBufferSize - 1), isTerm c) :
    ∃ rest : List Char,
      ReadLine st stream =
        some (ReadLineResult.ok (stream.content.takeWhile fun c => !(isTerm c)), "",
          { stream with content := rest }) ∧
      stream.content.length ≤ (st.m_constBufferSize - 1) + rest.length ∧
      ∀ c ∈ stream.content.takeWhile (fun c => !(isTerm c)), isTerm c = false := by
  obtain ⟨cap, hcap⟩ := Option.isSome_iff_exists.mp hbuf
  have hline : stripLine (fgetsChars (st.m_constBufferSize - 1) stream.content).1 =
      stream.content.takeWhile fun c => !(isTerm c) := by
    rw [stripLine_fgetsChars, stripLine_eq_takeWhile,
      takeWhile_take_of_term stream.content (st.m_constBufferSize - 1) hterm]
  obtain ⟨c0, hc0, _⟩ := hterm
  refine ⟨(fgetsChars (st.m_constBufferSize - 1) stream.content).2, ?_, ?_, ?_⟩
  · cases hcon : stream.content with
    | nil => rw [hcon] at hc0; simp at hc0
    | cons a as => rw [ReadLine_read st stream cap a as hcap hcon, hline, hcon]
  · exact fgetsChars_consumes_le stream.content (st.m_constBufferSize - 1)
  · intro c hc
    simpa using List.mem_takeWhile_imp hc

/-- Claim C2, witness: the stream delivers the bytes of the five-byte line
`step` followed by a newline; `ReadLine` returns exactly `step`. -/
theorem readLine_short_line_witness :
    ∃ rest : List Char,
      ReadLine wReader wStream =
        some (ReadLineResult.ok (wStream.content.takeWhile fun c => !(isTerm c)), "",
          { wStream with content := rest }) ∧
      wStream.content.length ≤ (wReader.m_constBufferSize - 1) + rest.length ∧
      ∀ c ∈ wStream.content.takeWhile (fun c => !(isTerm c)), isTerm c = false :=
  readLine_short_line wReader wStream rfl (by decide)

/-! ## Claim C7 -/

/-- Claim C7: when `fgets` obtains no data (empty stream), `ReadLine`
returns no line (the null return, modelled as `eof`), and the error-message
out-parameter carries the platform error text exactly when the stream's
error indicator is set; end-of-stream with the indicator clear yields an
empty error message — clean end-of-input, not an error. -/
theorem readLine_eof_error_report (st : ReaderState) (stream : Stream)
    (hbuf : st.m_pCmdBuffer.isSome = true) (hstdin : st.m_pStdin = true)
    (heof : stream.content = []) :
    ReadLine st stream =
      some (ReadLineResult.eof, if stream.errFlag then stream.errText else "", stream) := by
  obtain ⟨cap, hcap⟩ := Option.isSome_iff_exists.mp hbuf
  cases hf : stream.errFlag <;> simp [ReadLine, hcap, heof, hstdin, hf]

/-- Claim C7, witness: empty stream, error indicator clear — no line and an
empty error message. -/
theorem readLine_eof_error_report_witness :
    ReadLine wReader stream0 =
      some (ReadLineResult.eof, if stream0.errFlag then stream0.errText else "",
        stream0) :=
  readLine_eof_error_report wReader stream0 rfl rfl rfl

/-! ## Claim C3 -/

/-- Claim C3, counterexample: after `Initialize` then `Shutdown` on a fresh
instance (every module succeeding), `ReadLine` has no defined result
(`none` in the model): the method performs no initialization check and
passes the released, now-null `m_pCmdBuffer` straight to `fgets`,
dereferencing the null buffer handle instead of failing in a defined way. -/
theorem readLine_after_shutdown_counterexample :
    ReadLine ((Shutdown (Initialize construct envOk stream0).1 envOk).1) wStream =
      none := by
  decide

/-- Claim C3 (amended): `ReadLine` after `Shutdown` of an initialized
instance is NOT defined to fail: `Shutdown` nulls the buffer handle, and
`ReadLine`, having no initialization check, unconditionally accesses it —
in the model the call has no defined result (`none`, the null-pointer
dereference of the C++ source). -/
theorem readLine_after_shutdown_undefined (st : ReaderState) (env : ModuleEnv)
    (stream : Stream) (hinit : st.m_bInitialized = true) :
    (Shutdown st env).1.m_pCmdBuffer = none ∧
    ReadLine ((Shutdown st env).1) stream = none := by
  have hbuf : (Shutdown st env).1.m_pCmdBuffer = none := by
    cases hL : env.logOk <;> cases hR : env.resourcesOk <;>
      simp [Shutdown, moduleShutdown, MIstatus.success, SetErrorDescription,
        ClrErrorDescription, hinit, hL, hR]
  exact ⟨hbuf, by simp [ReadLine, hbuf]⟩

/-- Claim C3, witness: shutdown of an initialized reader, then a read. -/
theorem readLine_after_shutdown_undefined_witness :
    (Shutdown wReader envOk).1.m_pCmdBuffer = none ∧
    ReadLine ((Shutdown wReader envOk).1) wStream = none :=
  readLine_after_shutdown_undefined wReader envOk wStream rfl

/-! ## Claim C4 -/

/-- Claim C4: for every instance state and every module-teardown outcome,
`Shutdown` returns `MIstatus::success` and leaves the instance
un-initialized; when the instance was initialized, a failing teardown is
recorded in the error description (the Error-Description Sink) while the
call still succeeds, and a clean teardown leaves the description cleared. -/
theorem shutdown_always_succeeds (st : ReaderState) (env : ModuleEnv) :
    (Shutdown st env).2 = MIstatus.success ∧
    (Shutdown st env).1.m_bInitialized = false ∧
    (st.m_bInitialized = true →
      (env.resourcesOk = false ∨ env.logOk = false) →
      (Shutdown st env).1.errorDescription.isSome = true) ∧
    (st.m_bInitialized = true → env.resourcesOk = true → env.logOk = true →
      (Shutdown st env).1.errorDescription = none) := by
  cases hI : st.m_bInitialized <;> cases hL : env.logOk <;> cases hR : env.resourcesOk <;>
    simp [Shutdown, moduleShutdown, MIstatus.success, MIstatus.failure,
      SetErrorDescription, ClrErrorDescription, hI, hL, hR]

/-- Claim C4, witness: an initialized reader whose Log teardown fails —
the call still succeeds and the failure is recorded. -/
theorem shutdown_always_succeeds_witness :
    (Shutdown wReader envBad).2 = MIstatus.success ∧
    (Shutdown wReader envBad).1.m_bInitialized = false ∧
    (Shutdown wReader envBad).1.errorDescription.isSome = true :=
  ⟨(shutdown_always_succeeds wReader envBad).1,
   (shutdown_always_succeeds wReader envBad).2.1,
   (shutdown_always_succeeds wReader envBad).2.2.1 rfl (Or.inr rfl)⟩

/-! ## Claim C6 -/

/-- Claim C6, counterexample: a failing `Initialize` records an error
description; a later, succeeding `Initialize` does not clear it at the
start of the call (the source has no `ClrErrorDescription` in
`Initialize`), so the stale failure text survives the successful call —
the claimed clear-at-start discipline does not hold. -/
theorem initialize_stale_error_counterexample :
    (Initialize (Initialize construct envBad stream0).1 envOk stream0).2.2 =
      MIstatus.success ∧
    (Initialize (Initialize construct envBad stream0).1 envOk
        stream0).1.errorDescription ≠ none := by
  constructor
  · decide
  · decide

/-- Claim C6 (amended): `ReadLine` clears its error-message out-parameter at
the start of the call and sets it only on its failure path (null `fgets`
return with the stream error indicator set); `Initialize` does not clear
the instance error description at the start — a successful call leaves it
exactly as it was, only the failure path writes it; and `InputAvailable`
writes no instance state at all, the error description included. -/
theorem error_description_discipline :
    (∀ (st : ReaderState) (stream : Stream) (line : List Char) (msg : String)
      (stream2 : Stream),
      ReadLine st stream = some (ReadLineResult.ok line, msg, stream2) → msg = "") ∧
    (∀ (st : ReaderState) (stream : Stream) (r : ReadLineResult) (msg : String)
      (stream2 : Stream),
      ReadLine st stream = some (r, msg, stream2) → msg ≠ "" →
        r = ReadLineResult.eof ∧ stream.errFlag = true ∧ msg = stream.errText) ∧
    (∀ (st : ReaderState) (env : ModuleEnv) (stream : Stream),
      (Initialize st env stream).2.2 = MIstatus.success →
      (Initialize st env stream).1.errorDescription = st.errorDescription) ∧
    (∀ (st : ReaderState) (availIn : Bool) (rounds : List Round) (stream : Stream)
      (out : ReaderState × Bool × Bool × Stream),
      InputAvailable st availIn rounds stream = some out →
        out.1.errorDescription = st.errorDescription) := by
  refine ⟨?_, ?_, ?_, ?_⟩
  · intro st stream line msg stream2 h
    cases hb : st.m_pCmdBuffer with
    | none => simp [ReadLine, hb] at h
    | some cap =>
      cases hc : stream.content with
      | nil =>
        cases hs : st.m_pStdin <;> cases hf : stream.errFlag <;>
          simp [ReadLine, hb, hc, hs, hf] at h
      | cons a as =>
        rw [ReadLine_read st stream cap a as hb hc] at h
        simp at h
        exact h.2.1.symm
  · intro st stream r msg stream2 h hmsg
    cases hb : st.m_pCmdBuffer with
    | none => simp [ReadLine, hb] at h
    | some cap =>
      cases hc : stream.content with
      | nil =>
        cases hs : st.m_pStdin with
        | false => simp [ReadLine, hb, hc, hs] at h
        | true =>
          cases hf : stream.errFlag with
          | false =>
            simp [ReadLine, hb, hc, hs, hf] at h
            exact absurd h.2.1.symm hmsg
          | true =>
            simp [ReadLine, hb, hc, hs, hf] at h
            exact ⟨h.1.symm, rfl, h.2.1.symm⟩
      | cons a as =>
        rw [ReadLine_read st stream cap a as hb hc] at h
        simp at h
        exact absurd h.2.1.symm hmsg
  · intro st env stream hsucc
    cases hI : st.m_bInitialized <;> cases hL : env.logOk <;>
      cases hR : env.resourcesOk <;>
        simp_all [Initialize, moduleInit, MIstatus.success, MIstatus.failure,
          SetErrorDescription]
  · intro st availIn rounds stream out h
    rw [inputAvailable_state_eq st availIn rounds stream out h]

/-- Claim C6, witness: a successful `Initialize` from the constructed state
leaves the (empty) error description exactly as it found it. -/
theorem error_description_discipline_witness :
    (Initialize construct envOk stream0).2.2 = MIstatus.success ∧
    (Initialize construct envOk stream0).1.errorDescription =
      construct.errorDescription :=
  ⟨by decide, error_description_discipline.2.2.1 construct envOk stream0 (by decide)⟩

/-! ## Claim C8 -/

/-- Claim C8: `Initialize` on an initialized instance is a successful no-op;
`Shutdown` on the fresh, never-initialized instance is a successful no-op;
`Shutdown` twice in a row succeeds both times, the second changing nothing;
and with the module registry succeeding, `Initialize` → `Shutdown` returns
the instance to the exact constructed state, so the following `Initialize`
behaves exactly as the first did. -/
theorem lifecycle_idempotent :
    (∀ (st : ReaderState) (env : ModuleEnv) (stream : Stream),
      st.m_bInitialized = true →
        Initialize st env stream = (st, stream, MIstatus.success)) ∧
    (∀ env : ModuleEnv, Shutdown construct env = (construct, MIstatus.success)) ∧
    (∀ (st : ReaderState) (env1 env2 : ModuleEnv),
      (Shutdown st env1).2 = MIstatus.success ∧
      Shutdown (Shutdown st env1).1 env2 = ((Shutdown st env1).1, MIstatus.success)) ∧
    (∀ (e1 e2 e3 : ModuleEnv) (s1 s3 : Stream),
      e1.logOk = true → e1.resourcesOk = true →
      e2.logOk = true → e2.resourcesOk = true →
      (Shutdown (Initialize construct e1 s1).1 e2).1 = construct ∧
      Initialize (Shutdown (Initialize construct e1 s1).1 e2).1 e3 s3 =
        Initialize construct e3 s3) := by
  refine ⟨?_, ?_, ?_, ?_⟩
  · intro st env stream h
    simp [Initialize, h]
  · intro env
    exact shutdown_noop construct env rfl
  · intro st env1 env2
    exact ⟨shutdown_status st env1,
      shutdown_noop (Shutdown st env1).1 env2 (shutdown_not_initialized st env1)⟩
  · intro e1 e2 e3 s1 s3 h1L h1R h2L h2R
    have hinit : (Initialize construct e1 s1).1 =
        { m_constBufferSize := 1024, m_pStdin := true, m_pCmdBuffer := some 1024,
          m_waitForInput := true, m_bInitialized := true, errorDescription := none } := by
      simp [Initialize, moduleInit, MIstatus.success, construct, h1L, h1R]
    have hshut : (Shutdown (Initialize construct e1 s1).1 e2).1 = construct := by
      rw [hinit]
      simp [Shutdown, moduleShutdown, MIstatus.success, ClrErrorDescription,
        construct, h2L, h2R]
    exact ⟨hshut, by rw [hshut]⟩

/-- Claim C8, witness: a full init–shutdown–init round trip with every
module succeeding. -/
theorem lifecycle_idempotent_witness :
    (Shutdown (Initialize construct envOk stream0).1 envOk).1 = construct ∧
    Initialize (Shutdown (Initialize construct envOk stream0).1 envOk).1 envOk
        stream0 = Initialize construct envOk stream0 :=
  lifecycle_idempotent.2.2.2 envOk envOk envOk stream0 stream0 rfl rfl rfl rfl

/-! ## Claim C9 -/

/-- Claim C9: `m_waitForInput` is a monotonic latch: it is true at
construction; every operation other than `InterruptReadLine` leaves it
unchanged; `InterruptReadLine` clears it and is idempotent; and no sequence
of the component's operations ever raises it again once cleared. -/
theorem waitForInput_latch :
    construct.m_waitForInput = true ∧
    (∀ (st : ReaderState) (op : Op), op ≠ Op.opInterruptReadLine →
      (applyOp st op).m_waitForInput = st.m_waitForInput) ∧
    (∀ st : ReaderState, (InterruptReadLine st).m_waitForInput = false) ∧
    (∀ st : ReaderState, InterruptReadLine (InterruptReadLine st) = InterruptReadLine st) ∧
    (∀ (ops : List Op) (st : ReaderState), st.m_waitForInput = false →
      (runOps ops st).m_waitForInput = false) := by
  refine ⟨rfl, applyOp_waitForInput, fun st => rfl, fun st => rfl, ?_⟩
  intro ops
  induction ops with
  | nil => intro st h; exact h
  | cons op rest ih =>
    intro st h
    have hstep : (applyOp st op).m_waitForInput = false := by
      by_cases hop : op = Op.opInterruptReadLine
      · subst hop; rfl
      · rw [applyOp_waitForInput st op hop]; exact h
    simpa [runOps, List.foldl] using ih (applyOp st op) hstep

/-- Claim C9, witness: a shutdown leaves the flag alone, and a later
initialize does not revive a cleared flag. -/
theorem waitForInput_latch_witness :
    (applyOp construct (Op.opShutdown envOk)).m_waitForInput =
      construct.m_waitForInput ∧
    (runOps [Op.opInitialize envOk stream0]
      (InterruptReadLine construct)).m_waitForInput = false :=
  ⟨waitForInput_latch.2.1 construct (Op.opShutdown envOk) (by decide),
   waitForInput_latch.2.2.2.2 [Op.opInitialize envOk stream0]
     (InterruptReadLine construct) rfl⟩

/-! ## Claim C10 -/

/-- Claim C10: when `Initialize` on an un-initialized instance (null buffer,
no stdin handle) fails because a dependent module fails to start, the call
returns failure, no buffer is allocated, no stdin handle is stored, the
initialized flag stays false, the instance is unchanged apart from the
recorded error description (which is set), and a subsequent `Shutdown` is a
successful no-op with nothing to release. -/
theorem initialize_failure_no_alloc (st : ReaderState) (env : ModuleEnv)
    (stream : Stream) (env2 : ModuleEnv)
    (huninit : st.m_bInitialized = false)
    (hbuf : st.m_pCmdBuffer = none) (hstdin : st.m_pStdin = false)
    (hfail : env.logOk = false ∨ env.resourcesOk = false) :
    (Initialize st env stream).2.2 = MIstatus.failure ∧
    (Initialize st env stream).1.m_pCmdBuffer = none ∧
    (Initialize st env stream).1.m_pStdin = false ∧
    (Initialize st env stream).1.m_bInitialized = false ∧
    (Initialize st env stream).1 =
      { st with errorDescription := (Initialize st env stream).1.errorDescription } ∧
    (Initialize st env stream).1.errorDescription.isSome = true ∧
    Shutdown (Initialize st env stream).1 env2 =
      ((Initialize st env stream).1, MIstatus.success) := by
  rcases hfail with hf | hf <;>
    cases hL : env.logOk <;> cases hR : env.resourcesOk <;>
      first
      | (rw [hL] at hf; exact absurd hf (by decide))
      | (rw [hR] at hf; exact absurd hf (by decide))
      | simp [Initialize, Shutdown, moduleInit, moduleShutdown, MIstatus.success,
          MIstatus.failure, SetErrorDescription, ClrErrorDescription,
          huninit, hbuf, hstdin, hL, hR]

/-- Claim C10, witness: a fresh instance whose Log module fails to start. -/
theorem initialize_failure_no_alloc_witness :
    (Initialize construct envBad stream0).2.2 = MIstatus.failure ∧
    (Initialize construct envBad stream0).1.m_pCmdBuffer = none ∧
    (Initialize construct envBad stream0).1.m_pStdin = false ∧
    (Initialize construct envBad stream0).1.m_bInitialized = false ∧
    (Initialize construct envBad stream0).1 =
      { construct with
        errorDescription := (Initialize construct envBad stream0).1.errorDescription } ∧
    (Initialize construct envBad stream0).1.errorDescription.isSome = true ∧
    Shutdown (Initialize construct envBad stream0).1 envOk =
      ((Initialize construct envBad stream0).1, MIstatus.success) :=
  initialize_failure_no_alloc construct envBad stream0 envOk rfl rfl rfl (Or.inl rfl)

end StdinLinux
